import Mathlib

/-
Shallow embedding of src/main.rs of SolanaAIMarketplace.

Modelling conventions:
- Machine bytes are Nat values below 256; byte buffers are List Nat.
- A Rust operation that can panic is modelled with Option (none = panic) or,
  where the buffer state at the moment of the panic matters, with
  Except (List Nat) (List Nat) whose error constructor carries the buffer as
  it stands when the panic fires.
- A Rust Pubkey is a 32-byte array; it is modelled as a 32-element byte list.
-/

set_option maxRecDepth 8000

deriving instance DecidableEq for Except

/-- Identity handle of an account: exactly 32 bytes, as in the source Pubkey type. -/
abbrev Pubkey := { l : List Nat // l.length = 32 }

/-- Byte representation of a Pubkey, mirroring Pubkey.to_bytes in the source. -/
def Pubkey.to_bytes (p : Pubkey) : List Nat := p.val

/-- Construction of a Pubkey from a byte array, mirroring Pubkey.new_from_array:
it succeeds exactly on 32-byte inputs. -/
def Pubkey.new_from_array (l : List Nat) : Option Pubkey :=
  if h : l.length = 32 then some ⟨l, h⟩ else none

/-- Error taxonomy used by the source: the five precondition errors of
create_ai_model, the decode error InvalidAccountData, and the error produced by
next_account_info when the account list is exhausted. -/
inductive ProgramError where
  | InvalidAccountData
  | IncorrectProgramId
  | InvalidAccountDataSize
  | AccountAlreadyInitialized
  | AccountNotRentExempt
  | InsufficientFunds
  | NotEnoughAccountKeys
deriving DecidableEq

/-- Modelled from the spec: NAME_CAP, the capacity of the name field (32 bytes). -/
def NAME_CAP : Nat := 32

/-- Modelled from the spec: DESC_CAP, the capacity of the description field (32 bytes). -/
def DESC_CAP : Nat := 32

/-- Modelled from the spec: FILE_CAP, the capacity of the file payload (1024 bytes). -/
def FILE_CAP : Nat := 1024

/-- Modelled from the spec: IDENTITY_SIZE, the true byte width of an identity handle. -/
def IDENTITY_SIZE : Nat := 32

/-- Assignment output[i] = v on a byte buffer: panics (none) when i is out of range,
as Rust indexed assignment does. -/
def setByte (l : List Nat) (i v : Nat) : Option (List Nat) :=
  if i < l.length then some (l.set i v) else none

/-- Slice l[a..b] of a byte buffer: panics (none) when the range is invalid,
as Rust range indexing does. -/
def listSlice (l : List Nat) (a b : Nat) : Option (List Nat) :=
  if a ≤ b ∧ b ≤ l.length then some ((l.drop a).take (b - a)) else none

/-- Write dst[off..off+len].copy_from_slice(src): panics (none) when the range is out
of bounds or when the source length differs from the destination span, exactly as the
Rust slice operation and copy_from_slice do. -/
def copy_from_slice (dst : List Nat) (off len : Nat) (src : List Nat) : Option (List Nat) :=
  if off + len ≤ dst.length ∧ src.length = len then
    some (dst.take off ++ src ++ dst.drop (off + len))
  else none

/-- Little-endian encoding of a u64, mirroring u64.to_le_bytes: the low 8 bytes of
the value reduced modulo 2 ^ 64. -/
def toLeBytes8 (n : Nat) : List Nat :=
  [n % 256, n / 256 % 256, n / 256 ^ 2 % 256, n / 256 ^ 3 % 256,
   n / 256 ^ 4 % 256, n / 256 ^ 5 % 256, n / 256 ^ 6 % 256, n / 256 ^ 7 % 256]

/-- Little-endian decoding of a byte list, mirroring u64.from_le_bytes. -/
def fromLeBytes (l : List Nat) : Nat :=
  l.foldr (fun b acc => b + 256 * acc) 0

/-- Continuation byte test for UTF-8 validation: 0x80 through 0xBF. -/
def isCont (b : Nat) : Bool := decide (0x80 ≤ b) && decide (b ≤ 0xBF)

/-- Validity of a byte list as UTF-8 text, mirroring the check performed by
String.from_utf8 in the source decode path. -/
def isValidUtf8 : List Nat → Bool
  | [] => true
  | b :: rest =>
    if b < 0x80 then isValidUtf8 rest
    else if b < 0xC2 then false
    else if b < 0xE0 then
      match rest with
      | b1 :: r => isCont b1 && isValidUtf8 r
      | [] => false
    else if b < 0xF0 then
      match rest with
      | b1 :: b2 :: r =>
        (if b = 0xE0 then decide (0xA0 ≤ b1) && decide (b1 ≤ 0xBF)
         else if b = 0xED then decide (0x80 ≤ b1) && decide (b1 ≤ 0x9F)
         else isCont b1) && isCont b2 && isValidUtf8 r
      | _ => false
    else if b < 0xF5 then
      match rest with
      | b1 :: b2 :: b3 :: r =>
        (if b = 0xF0 then decide (0x90 ≤ b1) && decide (b1 ≤ 0xBF)
         else if b = 0xF4 then decide (0x80 ≤ b1) && decide (b1 ≤ 0x8F)
         else isCont b1) && isCont b2 && isCont b3 && isValidUtf8 r
      | _ => false
    else false

/-- Record type of the source: the AIModel struct. Text fields are kept as their
byte representation, since the codec only ever touches their bytes. -/
structure AIModel where
  is_initialized : Bool
  name : List Nat
  description : List Nat
  owner : Pubkey
  price : Nat
  model_file : List Nat
deriving DecidableEq

/-- Default value of AIModel, mirroring the derived Default implementation:
false flag, empty strings, all-zero owner, zero price, empty payload. -/
def AIModel.default : AIModel :=
  { is_initialized := false, name := [], description := [],
    owner := ⟨List.replicate 32 0, by simp⟩, price := 0, model_file := [] }

/-- Compile-time record size constant from the source: LEN = 1 + 32 + 32 + 8 + 8 + 1024. -/
def AIModel.LEN : Nat := 1 + 32 + 32 + 8 + 8 + 1024

/-- Encoder of the source, pack_into_slice, written step for step with the same
offsets and span widths: flag at 0, name at offset 1 span 32, description at
offset 33 span 32, owner at offset 65 span 8, price at offset 73 span 8, file
payload at offset 81 span 1024. Each step can panic; on panic the error value
carries the buffer as already mutated by the preceding steps. -/
def AIModel.pack_into_slice (m : AIModel) (output : List Nat) :
    Except (List Nat) (List Nat) :=
  match setByte output 0 (if m.is_initialized then 1 else 0) with
  | none => Except.error output
  | some o0 =>
    match copy_from_slice o0 1 32 m.name with
    | none => Except.error o0
    | some o1 =>
      match copy_from_slice o1 33 32 m.description with
      | none => Except.error o1
      | some o2 =>
        match copy_from_slice o2 65 8 (Pubkey.to_bytes m.owner) with
        | none => Except.error o2
        | some o3 =>
          match copy_from_slice o3 73 8 (toLeBytes8 m.price) with
          | none => Except.error o3
          | some o4 =>
            match copy_from_slice o4 81 1024 m.model_file with
            | none => Except.error o4
            | some o5 => Except.ok o5

/-- Decoder of the source, unpack_from_slice, written step for step with the same
offsets: flag read with get(0), name slice [1,33), description slice [33,65),
owner slice [65,97), price slice [97,105), file slice [105,1129). A failed slice
is a panic (none); a failed UTF-8 or identity conversion returns the
InvalidAccountData error, as in the source. -/
def AIModel.unpack_from_slice (input : List Nat) :
    Option (Except ProgramError AIModel) :=
  match input.head? with
  | none => some (Except.error ProgramError.InvalidAccountData)
  | some b0 =>
    match listSlice input 1 33 with
    | none => none
    | some nameBytes =>
      if isValidUtf8 nameBytes then
        match listSlice input 33 65 with
        | none => none
        | some descBytes =>
          if isValidUtf8 descBytes then
            match listSlice input 65 97 with
            | none => none
            | some ownerBytes =>
              match Pubkey.new_from_array ownerBytes with
              | none => some (Except.error ProgramError.InvalidAccountData)
              | some owner =>
                match listSlice input 97 105 with
                | none => none
                | some priceBytes =>
                  match listSlice input 105 1129 with
                  | none => none
                  | some fileBytes =>
                    some (Except.ok
                      { is_initialized := b0 != 0, name := nameBytes,
                        description := descBytes, owner := owner,
                        price := fromLeBytes priceBytes, model_file := fileBytes })
          else some (Except.error ProgramError.InvalidAccountData)
      else some (Except.error ProgramError.InvalidAccountData)

/-- Modelled from the spec: the rent oracle interface, an external collaborator
that, given a byte length, returns the minimum balance considered exempt. The
decoding of the rent sysvar account itself is host territory and out of scope,
so the oracle is passed to the transition directly. -/
structure Rent where
  minimum_balance : Nat → Nat

/-- Modelled from the spec: the rent oracle predicate for whether a given
balance and data length pair already qualifies as exempt, namely that the
balance meets or exceeds the minimum for that length. -/
def Rent.is_exempt (r : Rent) (balance data_len : Nat) : Bool :=
  decide (r.minimum_balance data_len ≤ balance)

/-- Storage slot handle as consumed by the transition: identity of the slot,
controlling-program identity, balance counter, and raw byte buffer. -/
structure AccountInfo where
  key : Pubkey
  owner : Pubkey
  lamports : Nat
  data : List Nat
deriving DecidableEq

/-- Modelled from the spec: the uninitialized test on a slot, which the spec
describes as checking the initialized flag (byte 0 of the raw storage) to be
unset; an empty buffer counts as uninitialized. -/
def AccountInfo.is_uninitialized (a : AccountInfo) : Bool :=
  a.data.headD 0 == 0

/-- Outcome of one invocation of the creation transition. Every constructor
carries the full account list after the invocation, so that absence of
mutation is an actual statement about the result: panic carries the accounts
as mutated up to the moment of the panic. -/
inductive CreateResult where
  | panic (accounts : List AccountInfo)
  | err (e : ProgramError) (accounts : List AccountInfo)
  | ok (accounts : List AccountInfo)
deriving DecidableEq

/-- Test that an Except value is a success. -/
def exceptIsOk : Except (List Nat) (List Nat) → Bool
  | Except.ok _ => true
  | Except.error _ => false

/-- Test that a CreateResult is a success. -/
def createOk : CreateResult → Bool
  | CreateResult.ok _ => true
  | _ => false

/-- Test that a CreateResult is the AccountAlreadyInitialized failure. -/
def alreadyInitErr : CreateResult → Bool
  | CreateResult.err ProgramError.AccountAlreadyInitialized _ => true
  | _ => false

/-- Creation transition of the source, create_ai_model, with the same account
order (listing slot, payer, rent sysvar; next_account_info errs with
NotEnoughAccountKeys when the list is exhausted), the same five checks in the
same order with the same errors, then the pack into the slot storage followed
by the debit of the payer and credit of the slot by the rent minimum. -/
def create_ai_model (program_id : Pubkey) (accounts : List AccountInfo) (rent : Rent)
    (name description : List Nat) (price : Nat) (model_file : List Nat) : CreateResult :=
  match accounts with
  | ai_model_account :: owner_account :: rent_sysvar_account :: rest =>
    if ai_model_account.owner ≠ program_id then
      CreateResult.err ProgramError.IncorrectProgramId accounts
    else if ai_model_account.data.length ≠ AIModel.LEN then
      CreateResult.err ProgramError.InvalidAccountDataSize accounts
    else if !ai_model_account.is_uninitialized then
      CreateResult.err ProgramError.AccountAlreadyInitialized accounts
    else if !(rent.is_exempt ai_model_account.lamports ai_model_account.data.length) then
      CreateResult.err ProgramError.AccountNotRentExempt accounts
    else if owner_account.lamports < rent.minimum_balance ai_model_account.data.length then
      CreateResult.err ProgramError.InsufficientFunds accounts
    else
      match AIModel.pack_into_slice
          { AIModel.default with
              is_initialized := true, name := name, description := description,
              owner := owner_account.key, price := price, model_file := model_file }
          ai_model_account.data with
      | Except.error d =>
          CreateResult.panic
            ({ ai_model_account with data := d } :: owner_account ::
              rent_sysvar_account :: rest)
      | Except.ok d =>
          CreateResult.ok
            ({ ai_model_account with
                data := d
                lamports := ai_model_account.lamports + rent.minimum_balance d.length }
              :: { owner_account with
                    lamports := owner_account.lamports - rent.minimum_balance d.length }
              :: rent_sysvar_account :: rest)
  | _ => CreateResult.err ProgramError.NotEnoughAccountKeys accounts

/-
Concrete values used by the theorems below.
-/

/-- Program identity used in the concrete scenarios. -/
def pidC : Pubkey := ⟨List.replicate 32 1, by simp⟩

/-- A program identity different from pidC. -/
def otherPid : Pubkey := ⟨List.replicate 32 9, by simp⟩

/-- Identity of the paying account in the concrete scenarios. -/
def payerKey : Pubkey := ⟨List.replicate 32 2, by simp⟩

/-- Identity of the listing slot in the concrete scenarios. -/
def slotKey : Pubkey := ⟨List.replicate 32 3, by simp⟩

/-- All-zero destination buffer of exactly AIModel.LEN bytes. -/
def zbuf : List Nat := List.replicate 1105 0

/-- Rent oracle charging two units per byte. -/
def rentDouble : Rent := ⟨fun len => 2 * len⟩

/-- Degenerate rent oracle charging nothing, the most favorable case possible. -/
def rentZero : Rent := ⟨fun _ => 0⟩

/-- Rent oracle charging one unit per byte. -/
def rentLinear : Rent := ⟨fun len => len⟩

/-- Listing whose name and description have exactly the 32-byte capacity length and
whose file payload has exactly the 1024-byte capacity length. -/
def exactModel : AIModel :=
  { is_initialized := true, name := List.replicate 32 97,
    description := List.replicate 32 98, owner := pidC, price := 7,
    model_file := List.replicate 1024 5 }

/-- Listing identical to exactModel except that its name is one byte over capacity. -/
def overModel : AIModel := { exactModel with name := List.replicate 33 97 }

/-- Listing value decoded from an all-zero 1129-byte buffer. -/
def zeroModel : AIModel :=
  { is_initialized := false, name := List.replicate 32 0,
    description := List.replicate 32 0, owner := ⟨List.replicate 32 0, by simp⟩,
    price := 0, model_file := List.replicate 1024 0 }

/-- Zeroed listing slot of the end-to-end scenario: correct owner program, correct
size, all-zero storage, balance 0. -/
def slotC4 : AccountInfo := { key := slotKey, owner := pidC, lamports := 0, data := zbuf }

/-- Payer of the end-to-end scenario, holding exactly the rentDouble minimum for
AIModel.LEN bytes. -/
def payerC4 : AccountInfo := { key := payerKey, owner := pidC, lamports := 2210, data := [] }

/-- Rent sysvar slot placeholder. -/
def raC4 : AccountInfo :=
  { key := ⟨List.replicate 32 4, by simp⟩, owner := pidC, lamports := 0, data := [] }

/-- Payer holding exactly the rentZero minimum, namely 0. -/
def payerC4b : AccountInfo := { payerC4 with lamports := 0 }

/-- Fully funded listing slot: correct owner program, correct size, zeroed storage,
balance above the rentLinear minimum. -/
def slotC10 : AccountInfo := { key := slotKey, owner := pidC, lamports := 2000, data := zbuf }

/-- Fully funded payer for the rentLinear oracle. -/
def payerC10 : AccountInfo := { key := payerKey, owner := pidC, lamports := 5000, data := [] }

/-- Rent sysvar slot placeholder for the conservation scenario. -/
def raC10 : AccountInfo :=
  { key := ⟨List.replicate 32 5, by simp⟩, owner := pidC, lamports := 0, data := [] }

/-- Funded listing slot used against an underfunded payer. -/
def slotC7 : AccountInfo := { key := slotKey, owner := pidC, lamports := 2000, data := zbuf }

/-- Payer whose balance of 3 is below the rentLinear minimum of 1105. -/
def payerC7 : AccountInfo := { key := payerKey, owner := pidC, lamports := 3, data := [] }

/-- Rent sysvar slot placeholder for the frame scenario. -/
def raC7 : AccountInfo :=
  { key := ⟨List.replicate 32 6, by simp⟩, owner := pidC, lamports := 0, data := [] }

/-- Slot whose initialized flag is set but whose controlling program is not the
invoking program. -/
def slotC8bad : AccountInfo :=
  { key := slotKey, owner := otherPid, lamports := 2000, data := 1 :: List.replicate 1104 0 }

/-- Slot whose initialized flag is set, with correct controlling program and size. -/
def slotC8 : AccountInfo := { slotC8bad with owner := pidC }

/-- Payer for the re-invocation scenarios. -/
def payerC8 : AccountInfo := { key := payerKey, owner := pidC, lamports := 4000, data := [] }

/-- Rent sysvar slot placeholder for the re-invocation scenarios. -/
def raC8 : AccountInfo :=
  { key := ⟨List.replicate 32 7, by simp⟩, owner := pidC, lamports := 0, data := [] }

/-- Slot that fails the controlling-program, size and uninitialized checks at once. -/
def slotBad : AccountInfo :=
  { key := slotKey, owner := otherPid, lamports := 0, data := 1 :: List.replicate 9 0 }

/-- Payer for the ordering witness. -/
def payerC6 : AccountInfo := { key := payerKey, owner := pidC, lamports := 50, data := [] }

/-- Rent sysvar slot placeholder for the ordering witness. -/
def raC6 : AccountInfo :=
  { key := ⟨List.replicate 32 8, by simp⟩, owner := pidC, lamports := 0, data := [] }

/-
Helper lemmas shared by several theorems.
-/

/-- Writing any 32-byte identity into the 8-byte span reserved at offset 65 always
panics, because copy_from_slice requires the source length to equal the span. -/
theorem copy_owner_none (o : List Nat) (p : Pubkey) :
    copy_from_slice o 65 8 (Pubkey.to_bytes p) = none := by
  have h32 : (Pubkey.to_bytes p).length = 32 := p.2
  simp [copy_from_slice, h32]

/-- The encoder can never complete: whatever the listing and the destination buffer,
pack_into_slice panics at the owner field at the latest. -/
theorem pack_no_ok (m : AIModel) (out r : List Nat) :
    AIModel.pack_into_slice m out ≠ Except.ok r := by
  intro h
  unfold AIModel.pack_into_slice at h
  split at h
  · cases h
  · split at h
    · cases h
    · split at h
      · cases h
      · split at h
        · cases h
        · rename_i o3 heq
          rw [copy_owner_none] at heq
          cases heq

/-- The creation transition can never return a success, because its storage write
calls the encoder, which always panics. -/
theorem create_never_ok (pid : Pubkey) (accs : List AccountInfo) (r : Rent)
    (n d : List Nat) (p : Nat) (f : List Nat) (a2 : List AccountInfo) :
    create_ai_model pid accs r n d p f ≠ CreateResult.ok a2 := by
  intro h
  rcases accs with _ | ⟨ai, _ | ⟨ow, _ | ⟨ra, rest⟩⟩⟩ <;> simp only [create_ai_model] at h
  · cases h
  · cases h
  · cases h
  · split at h
    · cases h
    · split at h
      · cases h
      · split at h
        · cases h
        · split at h
          · cases h
          · split at h
            · cases h
            · split at h
              · cases h
              · rename_i d2 heq
                exact pack_no_ok _ _ d2 heq

/-
Claim theorems.
-/

/-- C1: the round-trip law decode(encode(L)) = L fails on the code, because encode
never completes on any input: for every listing (whose owner identity is necessarily
32 bytes) and every destination buffer, pack_into_slice panics, at the owner field at
the latest, where 32 bytes are copied into the 8-byte reserved span at offset 65. So
there is no listing, in-capacity or not, for which decode of an encode result exists. -/
theorem c1_encode_never_succeeds (m : AIModel) (out : List Nat) :
    exceptIsOk (AIModel.pack_into_slice m out) = false := by
  cases hp : AIModel.pack_into_slice m out with
  | error e => rfl
  | ok r => exact absurd hp (pack_no_ok m out r)

/-- C2: the layout claim fails on the code. AIModel.LEN is 1105 = 1+32+32+8+8+1024,
not the 1129 = 1 + NAME_CAP + DESC_CAP + 32 + 8 + FILE_CAP demanded by the claimed
layout with a 32-byte owner field, and the reserved span for the owner field is 8
bytes, so the copy of any actual 32-byte identity into it always panics. -/
theorem c2_layout_mismatch :
    AIModel.LEN = 1105
    ∧ 1 + NAME_CAP + DESC_CAP + 32 + 8 + FILE_CAP = 1129
    ∧ (AIModel.LEN == 1 + NAME_CAP + DESC_CAP + 32 + 8 + FILE_CAP) = false
    ∧ ∀ (out : List Nat) (p : Pubkey),
        copy_from_slice out 65 8 (Pubkey.to_bytes p) = none :=
  ⟨by decide, by decide, by decide, fun out p => copy_owner_none out p⟩

/-- C3: encoding a listing whose name is one byte over capacity does not reject the
value with an error before writing: it panics after the flag byte at offset 0 has
already been written into the destination (the buffer at the panic starts with 1
while the original buffer started with 0), and encoding a listing whose name has
exactly the capacity length does not succeed either, since the encoder then panics
at the owner field, after name and description were already written. -/
theorem c3_capacity_boundary_panics :
    AIModel.pack_into_slice overModel zbuf = Except.error (1 :: List.replicate 1104 0)
    ∧ (1 :: List.replicate 1104 0).headD 0 = 1
    ∧ zbuf.headD 0 = 0
    ∧ AIModel.pack_into_slice exactModel zbuf
      = Except.error
          (1 :: (List.replicate 32 97 ++ (List.replicate 32 98 ++ List.replicate 1040 0))) :=
  ⟨by decide, by decide, by decide, by decide⟩

/-- C4: the end-to-end creation scenario of the claim does not succeed. With a
realistic rent oracle (positive minimum), the call is rejected at check 4 with
AccountNotRentExempt, because the code demands that the zero-balance slot already
meet the minimum before the transfer. Even under a zero-minimum oracle, where all
five checks pass, the call then panics while copying the 1-byte name into its
32-byte span, having already set the flag byte in the slot storage; it never
reaches the decode-able state, the owner write, or the balance transfer. -/
theorem c4_end_to_end_fails :
    create_ai_model pidC [slotC4, payerC4, raC4] rentDouble [109] [100] 100
        (List.replicate 1024 5)
      = CreateResult.err ProgramError.AccountNotRentExempt [slotC4, payerC4, raC4]
    ∧ create_ai_model pidC [slotC4, payerC4b, raC4] rentZero [109] [100] 100
        (List.replicate 1024 5)
      = CreateResult.panic [{ slotC4 with data := 1 :: List.replicate 1104 0 }, payerC4b, raC4] :=
  ⟨by decide, by decide⟩

/-- C5: decoding does not return a malformed-data error on every short buffer: on the
1-byte buffer it panics (out-of-range slice for the name field), and it panics even
on a buffer of exactly AIModel.LEN bytes, because decoding reads through offset 1129
while AIModel.LEN is 1105; only the empty buffer is answered with the
InvalidAccountData error, and a 1129-byte zero buffer actually decodes. -/
theorem c5_decode_short_buffer_panics :
    AIModel.unpack_from_slice [0] = none
    ∧ AIModel.unpack_from_slice (List.replicate AIModel.LEN 0) = none
    ∧ AIModel.unpack_from_slice [] = some (Except.error ProgramError.InvalidAccountData)
    ∧ AIModel.unpack_from_slice (List.replicate 1129 0) = some (Except.ok zeroModel) :=
  ⟨by decide, by decide, by decide, by decide⟩

/-- C6: the five creation preconditions are checked in the fixed order
controlling-program, storage length, uninitialized flag, slot rent exemption, payer
balance, each with its own error, the five errors are pairwise distinct, and for a
slot that is wrong on the first three counts at once the reported failure is the
controlling-program one. -/
theorem c6_check_order :
    (∀ (pid : Pubkey) (ai ow ra : AccountInfo) (rest : List AccountInfo) (r : Rent)
        (n d : List Nat) (p : Nat) (f : List Nat), ai.owner ≠ pid →
        create_ai_model pid (ai :: ow :: ra :: rest) r n d p f
          = CreateResult.err ProgramError.IncorrectProgramId (ai :: ow :: ra :: rest))
    ∧ (∀ (pid : Pubkey) (ai ow ra : AccountInfo) (rest : List AccountInfo) (r : Rent)
        (n d : List Nat) (p : Nat) (f : List Nat), ai.owner = pid →
        ai.data.length ≠ AIModel.LEN →
        create_ai_model pid (ai :: ow :: ra :: rest) r n d p f
          = CreateResult.err ProgramError.InvalidAccountDataSize (ai :: ow :: ra :: rest))
    ∧ (∀ (pid : Pubkey) (ai ow ra : AccountInfo) (rest : List AccountInfo) (r : Rent)
        (n d : List Nat) (p : Nat) (f : List Nat), ai.owner = pid →
        ai.data.length = AIModel.LEN → ai.is_uninitialized = false →
        create_ai_model pid (ai :: ow :: ra :: rest) r n d p f
          = CreateResult.err ProgramError.AccountAlreadyInitialized (ai :: ow :: ra :: rest))
    ∧ (∀ (pid : Pubkey) (ai ow ra : AccountInfo) (rest : List AccountInfo) (r : Rent)
        (n d : List Nat) (p : Nat) (f : List Nat), ai.owner = pid →
        ai.data.length = AIModel.LEN → ai.is_uninitialized = true →
        r.is_exempt ai.lamports AIModel.LEN = false →
        create_ai_model pid (ai :: ow :: ra :: rest) r n d p f
          = CreateResult.err ProgramError.AccountNotRentExempt (ai :: ow :: ra :: rest))
    ∧ (∀ (pid : Pubkey) (ai ow ra : AccountInfo) (rest : List AccountInfo) (r : Rent)
        (n d : List Nat) (p : Nat) (f : List Nat), ai.owner = pid →
        ai.data.length = AIModel.LEN → ai.is_uninitialized = true →
        r.is_exempt ai.lamports AIModel.LEN = true →
        ow.lamports < r.minimum_balance AIModel.LEN →
        create_ai_model pid (ai :: ow :: ra :: rest) r n d p f
          = CreateResult.err ProgramError.InsufficientFunds (ai :: ow :: ra :: rest))
    ∧ ([ProgramError.IncorrectProgramId, ProgramError.InvalidAccountDataSize,
        ProgramError.AccountAlreadyInitialized, ProgramError.AccountNotRentExempt,
        ProgramError.InsufficientFunds].dedup.length = 5)
    ∧ (∀ (pid : Pubkey) (ai ow ra : AccountInfo) (rest : List AccountInfo) (r : Rent)
        (n d : List Nat) (p : Nat) (f : List Nat), ai.owner ≠ pid →
        ai.data.length ≠ AIModel.LEN → ai.is_uninitialized = false →
        create_ai_model pid (ai :: ow :: ra :: rest) r n d p f
          = CreateResult.err ProgramError.IncorrectProgramId (ai :: ow :: ra :: rest)) := by
  refine ⟨?_, ?_, ?_, ?_, ?_, by decide, ?_⟩
  · intro pid ai ow ra rest r n d p f h1
    simp [create_ai_model, h1]
  · intro pid ai ow ra rest r n d p f h1 h2
    simp [create_ai_model, h1, h2]
  · intro pid ai ow ra rest r n d p f h1 h2 h3
    simp [create_ai_model, h1, h2, h3]
  · intro pid ai ow ra rest r n d p f h1 h2 h3 h4
    simp [create_ai_model, h1, h2, h3, h4]
  · intro pid ai ow ra rest r n d p f h1 h2 h3 h4 h5
    simp [create_ai_model, h1, h2, h3, h4, h5]
  · intro pid ai ow ra rest r n d p f h1 h2 h3
    simp [create_ai_model, h1]

/-- Witness for C6: a slot with wrong controlling program, wrong size (10 bytes) and
set flag is reported as IncorrectProgramId, the first check winning. -/
theorem c6_check_order_witness :
    create_ai_model pidC [slotBad, payerC6, raC6] rentLinear [109] [100] 5 []
      = CreateResult.err ProgramError.IncorrectProgramId [slotBad, payerC6, raC6] :=
  c6_check_order.2.2.2.2.2.2 pidC slotBad payerC6 raC6 [] rentLinear [109] [100] 5 []
    (by decide) (by decide) (by decide)

/-- C7: whenever the creation transition returns an error, the account list it
returns is exactly the input account list: the slot storage bytes, the slot balance
and the payer balance are all unchanged, with no partial mutation on any error. -/
theorem c7_error_no_mutation (pid : Pubkey) (accs : List AccountInfo) (r : Rent)
    (n d : List Nat) (p : Nat) (f : List Nat) (e : ProgramError) (a2 : List AccountInfo)
    (h : create_ai_model pid accs r n d p f = CreateResult.err e a2) : a2 = accs := by
  rcases accs with _ | ⟨ai, _ | ⟨ow, _ | ⟨ra, rest⟩⟩⟩ <;> simp only [create_ai_model] at h
  · injection h with h1 h2; exact h2.symm
  · injection h with h1 h2; exact h2.symm
  · injection h with h1 h2; exact h2.symm
  · split at h
    · injection h with h1 h2; exact h2.symm
    · split at h
      · injection h with h1 h2; exact h2.symm
      · split at h
        · injection h with h1 h2; exact h2.symm
        · split at h
          · injection h with h1 h2; exact h2.symm
          · split at h
            · injection h with h1 h2; exact h2.symm
            · split at h
              · cases h
              · cases h

/-- Witness for C7: an InsufficientFunds failure (check 5) leaves the accounts as
they were. -/
theorem c7_error_no_mutation_witness :
    ([slotC7, payerC7, raC7] : List AccountInfo) = [slotC7, payerC7, raC7] :=
  c7_error_no_mutation pidC [slotC7, payerC7, raC7] rentLinear [109] [100] 5 []
    ProgramError.InsufficientFunds [slotC7, payerC7, raC7] (by decide)

/-- C8 counterexample: an invocation on a slot whose initialized flag is set but
whose controlling program differs from the invoking program fails with
IncorrectProgramId, not with AccountAlreadyInitialized, refuting the claim that
every invocation on a flag-set slot fails with AlreadyInitialized at check 3. -/
theorem c8_counterexample :
    create_ai_model pidC [slotC8bad, payerC8, raC8] rentLinear [109] [100] 5 []
      = CreateResult.err ProgramError.IncorrectProgramId [slotC8bad, payerC8, raC8]
    ∧ alreadyInitErr
        (create_ai_model pidC [slotC8bad, payerC8, raC8] rentLinear [109] [100] 5 [])
      = false :=
  ⟨by decide, by decide⟩

/-- C8 amended: for every slot whose initialized flag is set and whose
controlling-program identity and storage length pass the two earlier checks, every
invocation of the creation transition fails with AccountAlreadyInitialized and
returns the account list unchanged. -/
theorem c8_already_initialized (pid : Pubkey) (ai ow ra : AccountInfo)
    (rest : List AccountInfo) (r : Rent) (n d : List Nat) (p : Nat) (f : List Nat)
    (h1 : ai.owner = pid) (h2 : ai.data.length = AIModel.LEN)
    (h3 : ai.is_uninitialized = false) :
    create_ai_model pid (ai :: ow :: ra :: rest) r n d p f
      = CreateResult.err ProgramError.AccountAlreadyInitialized (ai :: ow :: ra :: rest) := by
  simp [create_ai_model, h1, h2, h3]

/-- Witness for the amended C8: a well-formed initialized slot is rejected with
AccountAlreadyInitialized and nothing is mutated. -/
theorem c8_already_initialized_witness :
    create_ai_model pidC [slotC8, payerC8, raC8] rentLinear [109] [100] 5 []
      = CreateResult.err ProgramError.AccountAlreadyInitialized [slotC8, payerC8, raC8] :=
  c8_already_initialized pidC slotC8 payerC8 raC8 [] rentLinear [109] [100] 5 []
    (by decide) (by decide) (by decide)

/-- C9: an invocation with fewer than three account handles fails with the
not-enough-accounts error before any precondition check, and the account list it
reports is the input list unchanged. -/
theorem c9_not_enough_accounts (pid : Pubkey) (accs : List AccountInfo) (r : Rent)
    (n d : List Nat) (p : Nat) (f : List Nat) (h : accs.length < 3) :
    create_ai_model pid accs r n d p f
      = CreateResult.err ProgramError.NotEnoughAccountKeys accs := by
  rcases accs with _ | ⟨a, _ | ⟨b, _ | ⟨c, t⟩⟩⟩
  · rfl
  · rfl
  · rfl
  · exfalso
    simp [List.length_cons] at h
    omega

/-- Witness for C9: the empty account list is rejected with NotEnoughAccountKeys. -/
theorem c9_not_enough_accounts_witness :
    create_ai_model pidC [] rentLinear [] [] 0 []
      = CreateResult.err ProgramError.NotEnoughAccountKeys [] :=
  c9_not_enough_accounts pidC [] rentLinear [] [] 0 [] (by decide)

/-- C10: the conservation claim is about successful invocations, but the creation
transition never succeeds on any input: the balance transfer is unreachable because
the storage write panics first. Even in a fully favorable concrete run (correct
program, correct size, zeroed storage, slot and payer funded above the minimum,
exact-capacity fields) the transition panics at the owner copy after flag, name and
description were written, with both balances untouched and the transfer never
executed. -/
theorem c10_conservation_unreachable :
    (∀ (pid : Pubkey) (accs : List AccountInfo) (r : Rent) (n d : List Nat) (p : Nat)
        (f : List Nat), createOk (create_ai_model pid accs r n d p f) = false)
    ∧ create_ai_model pidC [slotC10, payerC10, raC10] rentLinear (List.replicate 32 97)
        (List.replicate 32 98) 9 (List.replicate 1024 5)
      = CreateResult.panic
          [{ slotC10 with
              data := 1 :: (List.replicate 32 97 ++ (List.replicate 32 98 ++ List.replicate 1040 0)) },
           payerC10, raC10] := by
  constructor
  · intro pid accs r n d p f
    cases hc : create_ai_model pid accs r n d p f with
    | panic a => rfl
    | err e a => rfl
    | ok a => exact absurd hc (create_never_ok pid accs r n d p f a)
  · decide
